import Mathlib

/-!
Shallow embedding of the NameTag badge firmware (src/src/main.cpp) for
verification of its specification.  The controller's mutable globals become a
`BadgeState` record; the BLE write callback, the button-click callback and one
iteration of `loop()` become pure state-transition functions; the e-paper /
NVS / BLE side effects of a tick are recorded in a `TickEvents` record.
Timestamps are natural numbers, and the firmware's `unsigned long`
(32-bit on the ESP32) subtraction `millis() - t0` is modelled by `elapsed32`.
Strings are treated as the ASCII payloads the protocol carries, so Lean's
character-based `String.length`/`String.drop` coincide with Arduino's
byte-based `length()`/`substring()`.
-/

set_option linter.unusedVariables false

namespace NameTag

/-- Display modes of the badge, src/src/main.cpp lines 86-91. -/
inductive DisplayMode where
  | INFO
  | QR_CODE
  | BLANK
deriving DecidableEq, Repr

/-- Fixed QR version, line 94. -/
def FIXED_QR_VERSION : Nat := 7

/-- Module-to-pixel scale factor, line 95. -/
def FIXED_QR_SCALE : Nat := 2

/-- Maximum accepted QR payload length, line 96. -/
def MAX_QR_INPUT_STRING_LENGTH : Nat := 90

/-- Button cooldown window in milliseconds, line 130. -/
def BUTTON_COOLDOWN_MS : Nat := 5000

/-- Disconnected idle budget before deep sleep, the literal 60000 at line 607. -/
def WAKE_TIMEOUT_MS : Nat := 60000

/-- The `dispMode` ordinal written by `putUInt` is the C enum value of the mode
(`(unsigned int)currentMode`, lines 519 and 587). -/
def modeToNat : DisplayMode → Nat
  | DisplayMode.INFO => 0
  | DisplayMode.QR_CODE => 1
  | DisplayMode.BLANK => 2

/-- The C cast `(DisplayMode)preferences.getUInt(...)` at line 348.  Stored
ordinals only ever come from `modeToNat`, so values other than 0, 1, 2 never
occur; they are mapped to `INFO` here only to keep the function total. -/
def natToMode : Nat → DisplayMode
  | 0 => DisplayMode.INFO
  | 1 => DisplayMode.QR_CODE
  | 2 => DisplayMode.BLANK
  | _ => DisplayMode.INFO

/-- The NVS namespace `badgeData` with its three independent keys
`persInfo`, `qrData`, `dispMode` (lines 47-50).  `none` models an absent key. -/
structure NvStore where
  persInfo : Option String
  qrData : Option String
  dispMode : Option Nat
deriving DecidableEq, Repr

/-- A store with no keys present, as on first boot. -/
def emptyStore : NvStore := { persInfo := none, qrData := none, dispMode := none }

/-- The firmware's mutable globals (lines 75-138) that the claims are about.
`deviceConnected` is the connection flag; `nvs` is the in-model image of the
persistent store. -/
structure BadgeState where
  currentMode : DisplayMode
  requestedMode : DisplayMode
  personalInfo : String
  qrCodeData : String
  displayUpdateRequestNeeded : Bool
  clearDisplayRequested : Bool
  newInfoDataReceived : Bool
  newQrDataReceived : Bool
  lastButtonActionTime : Nat
  wakeStartTime : Nat
  deviceConnected : Bool
  nvs : NvStore
deriving DecidableEq, Repr

/-- Unsigned 32-bit difference `now - t0` as computed by the firmware on
`unsigned long` millisecond timestamps (lines 607 and 732). -/
def elapsed32 (now t0 : Nat) : Nat :=
  (now % 4294967296 + 4294967296 - t0 % 4294967296) % 4294967296

/-- The button rotation requested by `handleButtonClick`, the `switch` at
lines 748-773.  The C `default` arm is unreachable for the three-valued
enum, so the match is total as written. -/
def buttonRotation (current : DisplayMode) (qrCodeData : String) : DisplayMode :=
  match current with
  | DisplayMode.INFO =>
      if 0 < qrCodeData.length then DisplayMode.QR_CODE else DisplayMode.BLANK
  | DisplayMode.QR_CODE => DisplayMode.BLANK
  | DisplayMode.BLANK => DisplayMode.INFO

/-- `handleButtonClick` (lines 729-788): drop the click inside the cooldown
window; otherwise set `requestedMode` by the rotation and, when the new request
differs from the current mode or from the previous request, restart the
cooldown timer. -/
def handleButtonClick (now : Nat) (s : BadgeState) : BadgeState :=
  if elapsed32 now s.lastButtonActionTime < BUTTON_COOLDOWN_MS then s
  else
    let modeBeforeRequest := s.requestedMode
    let s1 := { s with requestedMode := buttonRotation s.currentMode s.qrCodeData }
    if s1.requestedMode ≠ s1.currentMode ∨ s1.requestedMode ≠ modeBeforeRequest then
      { s1 with lastButtonActionTime := now }
    else s1

/-- C `isspace` on ASCII, the character class removed by Arduino
`String::trim`. -/
def isSpaceChar (c : Char) : Bool :=
  c = ' ' ∨ c = '\t' ∨ c = '\n' ∨ c = '\x0b' ∨ c = '\x0c' ∨ c = '\r'

/-- Arduino `String::trim` (line 246): strip leading and trailing `isspace`
characters. -/
def arduinoTrim (s : String) : String :=
  String.mk (((s.data.dropWhile isSpaceChar).reverse.dropWhile isSpaceChar).reverse)

/-- ASCII lower-casing of one character, as used by Arduino
`String::equalsIgnoreCase`. -/
def lowerChar (c : Char) : Char :=
  if 'A' ≤ c ∧ c ≤ 'Z' then Char.ofNat (c.toNat + 32) else c

/-- Arduino `String::equalsIgnoreCase` (lines 252, 261, 266): ASCII
case-insensitive equality. -/
def equalsIgnoreCase (a b : String) : Bool :=
  a.data.map lowerChar == b.data.map lowerChar

/-- Character-list version of Arduino `String::startsWith`. -/
def hasPrefixChars : List Char → List Char → Bool
  | _, [] => true
  | [], _ :: _ => false
  | a :: as, b :: bs => a == b && hasPrefixChars as bs

/-- Arduino `String::startsWith` (lines 271, 285). -/
def arduinoStartsWith (s p : String) : Bool :=
  hasPrefixChars s.data p.data

/-- Arduino `String::substring(n)` (lines 273, 287): the suffix from
character index `n`. -/
def substringFrom (s : String) (n : Nat) : String :=
  String.mk (s.data.drop n)

/-- Character-list version of the single `replace` call in the source. -/
def unescapeNewlines : List Char → List Char
  | [] => []
  | '\\' :: 'n' :: rest => '\n' :: unescapeNewlines rest
  | c :: rest => c :: unescapeNewlines rest

/-- Arduino `personalInfo.replace("\\n", "\n")` (line 277): rewrite every
literal backslash-n pair to a real newline, left to right. -/
def replaceNewlineEscapes (s : String) : String :=
  String.mk (unescapeNewlines s.data)

/-- Result of the classification part of the BLE write callback: the mutated
state, and whether the `dataChanged` flag was set. -/
structure WriteOutcome where
  state : BadgeState
  dataChanged : Bool
deriving DecidableEq, Repr

/-- The if/else chain of `DataCharacteristicCallbacks::onWrite`
(lines 252-304), applied to the already-trimmed value.  Keyword commands are
matched case-insensitively (Arduino `equalsIgnoreCase` on ASCII); data payloads
use the exact prefixes, and the payload is taken with `substring`/`drop` past
the prefix length (14 for `data:personal:`, 8 for `data:qr:`).  Note the
comparison `personalInfo != infoPayload` happens before the `\\n` unescaping
(lines 274-277), exactly as in the source. -/
def onWriteClassify (v : String) (s : BadgeState) : WriteOutcome :=
  if equalsIgnoreCase v "command:clear" then
    { state := { s with clearDisplayRequested := true,
                        newInfoDataReceived := false, newQrDataReceived := false },
      dataChanged := false }
  else if equalsIgnoreCase v "display:info" then
    { state := { s with requestedMode := DisplayMode.INFO }, dataChanged := false }
  else if equalsIgnoreCase v "display:qr" then
    { state := { s with requestedMode := DisplayMode.QR_CODE }, dataChanged := false }
  else if arduinoStartsWith v "data:personal:" then
    let infoPayload := substringFrom v 14
    if s.personalInfo ≠ infoPayload then
      { state := { s with personalInfo := replaceNewlineEscapes infoPayload,
                          newInfoDataReceived := true,
                          clearDisplayRequested := false,
                          requestedMode := DisplayMode.INFO },
        dataChanged := true }
    else { state := s, dataChanged := false }
  else if arduinoStartsWith v "data:qr:" then
    let qrPayload := substringFrom v 8
    if qrPayload.length ≤ MAX_QR_INPUT_STRING_LENGTH then
      if s.qrCodeData ≠ qrPayload then
        { state := { s with qrCodeData := qrPayload,
                            newQrDataReceived := true,
                            clearDisplayRequested := false,
                            requestedMode := DisplayMode.QR_CODE },
          dataChanged := true }
      else { state := s, dataChanged := false }
    else { state := s, dataChanged := false }
  else { state := s, dataChanged := false }

/-- `DataCharacteristicCallbacks::onWrite` (lines 242-321): trim the inbound
value, classify it, and when data changed write the fields whose
received-flags are set back to NVS (lines 306-320). -/
def onWrite (value : String) (s : BadgeState) : BadgeState :=
  let o := onWriteClassify (arduinoTrim value) s
  if o.dataChanged then
    { o.state with nvs :=
        { o.state.nvs with
            persInfo := if o.state.newInfoDataReceived then some o.state.personalInfo
                        else o.state.nvs.persInfo,
            qrData := if o.state.newQrDataReceived then some o.state.qrCodeData
                      else o.state.nvs.qrData } }
  else o.state

/-- `MyServerCallbacks::onConnect` (lines 219-227): only sets the flag. -/
def onConnect (s : BadgeState) : BadgeState :=
  { s with deviceConnected := true }

/-- `MyServerCallbacks::onDisconnect` (lines 229-236): clears the flag and
restarts the sleep-timeout origin with `wakeStartTime = millis()`. -/
def onDisconnect (now : Nat) (s : BadgeState) : BadgeState :=
  { s with deviceConnected := false, wakeStartTime := now }

/-- The state effect of `performFullClear` (lines 830-842): after painting the
panel white it forces `currentMode = requestedMode = BLANK`. -/
def performFullClearOn (s : BadgeState) : BadgeState :=
  { s with currentMode := DisplayMode.BLANK, requestedMode := DisplayMode.BLANK }

/-- Outcome of the shared mode-mismatch handler inside `loop()`. -/
structure ModeChangeResult where
  state : BadgeState
  needsRedraw : Bool
  clearPerformed : Bool
deriving DecidableEq, Repr

/-- The mode-change block duplicated verbatim in the connected (lines 461-498)
and disconnected (lines 544-581) arms of `loop()`: validate the request (QR
needs non-empty `qrCodeData`, else `requestedMode` snaps back to
`currentMode`); if allowed set `currentMode = requestedMode`, and when the new
mode is BLANK perform the full clear instead of marking a redraw. -/
def processModeChange (s : BadgeState) : ModeChangeResult :=
  let allowAndState : Bool × BadgeState :=
    match s.requestedMode with
    | DisplayMode.INFO => (true, s)
    | DisplayMode.QR_CODE =>
        if 0 < s.qrCodeData.length then (true, s)
        else (false, { s with requestedMode := s.currentMode })
    | DisplayMode.BLANK => (true, s)
  if allowAndState.1 then
    let s2 := { allowAndState.2 with currentMode := allowAndState.2.requestedMode }
    if s2.currentMode = DisplayMode.BLANK then
      { state := performFullClearOn s2, needsRedraw := false, clearPerformed := true }
    else
      { state := s2, needsRedraw := true, clearPerformed := false }
  else
    { state := allowAndState.2, needsRedraw := false, clearPerformed := false }

/-- Observable side effects of one `loop()` iteration: whether
`performFullClear` painted the panel, whether `updateDisplay` ran, whether the
mode was written to NVS, and the advertising/hibernate/deep-sleep actions of
the disconnected timeout branch. -/
structure TickEvents where
  fullClearPerformed : Bool
  displayUpdated : Bool
  modeSavedToNvs : Bool
  stoppedAdvertising : Bool
  hibernated : Bool
  enteredDeepSleep : Bool
deriving DecidableEq, Repr

/-- State and effects of one `loop()` iteration. -/
structure TickResult where
  state : BadgeState
  events : TickEvents
deriving DecidableEq, Repr

/-- The connected arm of `loop()` (lines 432-536).  Strict priority order:
clear request, then mode mismatch, then new-data redraw for the current
screen.  The new-data flags are consumed every connected tick (lines 512-513),
the mode is persisted iff it changed (lines 516-522), and the display is
repainted when a redraw was marked or the initial-boot flag was still set,
unless the mode is BLANK (lines 526-535).  `sendBatteryNotification` touches
only the battery characteristic and its private timer, so it is not modelled.
The strict-priority if-chain (lines 441-509) is `connectedStep`; the rest of
the arm is `connectedTick` below. -/
def connectedStep (s : BadgeState) : ModeChangeResult :=
  if s.clearDisplayRequested then
    let s1 := { s with clearDisplayRequested := false }
    if s1.currentMode ≠ DisplayMode.BLANK then
      { state := performFullClearOn { s1 with currentMode := DisplayMode.BLANK },
        needsRedraw := false, clearPerformed := true }
    else
      { state := s1, needsRedraw := false, clearPerformed := false }
  else if s.requestedMode ≠ s.currentMode then
    processModeChange s
  else if s.newInfoDataReceived ∧ s.currentMode = DisplayMode.INFO then
    { state := s, needsRedraw := true, clearPerformed := false }
  else if s.newQrDataReceived ∧ s.currentMode = DisplayMode.QR_CODE then
    { state := s, needsRedraw := true, clearPerformed := false }
  else
    { state := s, needsRedraw := false, clearPerformed := false }

def connectedTick (s : BadgeState) : TickResult :=
  let step := connectedStep s
  let s1 := { step.state with newInfoDataReceived := false, newQrDataReceived := false }
  let saved : Bool := s1.currentMode ≠ s.currentMode
  let s2 := if saved then
              { s1 with nvs := { s1.nvs with dispMode := some (modeToNat s1.currentMode) } }
            else s1
  let shouldUpdate : Bool := step.needsRedraw ∨ s2.displayUpdateRequestNeeded
  let s3 := { s2 with displayUpdateRequestNeeded := false }
  let updated : Bool := shouldUpdate ∧ s3.currentMode ≠ DisplayMode.BLANK
  { state := s3,
    events := { fullClearPerformed := step.clearPerformed,
                displayUpdated := updated,
                modeSavedToNvs := saved,
                stoppedAdvertising := false,
                hibernated := step.clearPerformed ∨ updated,
                enteredDeepSleep := false } }

/-- The disconnected arm of `loop()` (lines 537-618).  It never consults the
clear flag or the new-data flags; it handles a pending mode change, persists a
changed mode, repaints if needed, and then, once 60 s have elapsed since
`wakeStartTime`, stops advertising, hibernates the panel and enters deep
sleep (lines 606-617).  The mode-change handling (lines 544-581) is
`disconnectedStep`; it only reacts to a pending mode change, never to the
clear or new-data flags. -/
def disconnectedStep (s : BadgeState) : ModeChangeResult :=
  if s.requestedMode ≠ s.currentMode then processModeChange s
  else { state := s, needsRedraw := false, clearPerformed := false }

def disconnectedTick (now : Nat) (s : BadgeState) : TickResult :=
  let step := disconnectedStep s
  let saved : Bool := step.state.currentMode ≠ s.currentMode
  let s2 := if saved then
              { step.state with
                  nvs := { step.state.nvs with dispMode := some (modeToNat step.state.currentMode) } }
            else step.state
  let shouldUpdate : Bool := step.needsRedraw ∨ s2.displayUpdateRequestNeeded
  let s3 := { s2 with displayUpdateRequestNeeded := false }
  let updated : Bool := shouldUpdate ∧ s3.currentMode ≠ DisplayMode.BLANK
  let timedOut : Bool := WAKE_TIMEOUT_MS ≤ elapsed32 now s3.wakeStartTime
  { state := s3,
    events := { fullClearPerformed := step.clearPerformed,
                displayUpdated := updated,
                modeSavedToNvs := saved,
                stoppedAdvertising := timedOut,
                hibernated := step.clearPerformed ∨ updated ∨ timedOut,
                enteredDeepSleep := timedOut } }

/-- One iteration of `loop()` (lines 428-621).  `button.tick()` may invoke
`handleButtonClick`, which is modelled as its own transition; the rest of the
iteration branches on the connection flag. -/
def loopTick (now : Nat) (s : BadgeState) : TickResult :=
  if s.deviceConnected then connectedTick s else disconnectedTick now s

/-- The NVS-loading part of `setup()` (lines 336-359 plus the global
initialisers at lines 117-134): load the three keys with their documented
defaults, sync `requestedMode` to the loaded mode, mark the initial redraw
(both wake-cause arms set it, lines 387 and 395), and record the wake time. -/
def setupLoad (nvs : NvStore) (now : Nat) : BadgeState :=
  let personalInfo := nvs.persInfo.getD "Default Name\nDefault Title\n"
  let qrCodeData := nvs.qrData.getD ""
  let currentMode := natToMode (nvs.dispMode.getD (modeToNat DisplayMode.INFO))
  { currentMode := currentMode,
    requestedMode := currentMode,
    personalInfo := personalInfo,
    qrCodeData := qrCodeData,
    displayUpdateRequestNeeded := true,
    clearDisplayRequested := false,
    newInfoDataReceived := false,
    newQrDataReceived := false,
    lastButtonActionTime := 0,
    wakeStartTime := now,
    deviceConnected := false,
    nvs := nvs }

/-- Result reported by the external QR encoder's `qrcode_initText` for the
fixed version/ECC: success with the symbol's module count `qrcode.size`, or
failure (a nonzero `esp_err_t`, line 989).  The encoder is an out-of-scope
collaborator, so it is abstracted by this parameter. -/
inductive EncodeResult where
  | ok (size : Nat)
  | fail
deriving DecidableEq, Repr

/-- The external library's `qrcode_getBufferSize(FIXED_QR_VERSION)`:
for a version-7 symbol of 4*7+17 = 45 modules this is (45*45+7)/8 = 254
bytes.  A constant of the external collaborator, used only by the two buffer
guards at lines 970-984. -/
def qrcode_getBufferSize_v7 : Nat := 254

/-- Side length in pixels of the scaled symbol,
`qr_modules_size * FIXED_QR_SCALE` (line 1001). -/
def scaledQrPixelSize (size : Nat) : Nat := size * FIXED_QR_SCALE

/-- The non-fit condition tested at line 1013:
`final_qr_pixel_size > w_target_area || final_qr_pixel_size > h_target_area`. -/
def qrDoesNotFit (w h : Int) (size : Nat) : Prop :=
  w < (scaledQrPixelSize size : Int) ∨ h < (scaledQrPixelSize size : Int)

/-- Return value of `drawQrCode` (lines 952-1043).  `false` (failure) is
returned for an empty text, an over-long text, a zero or over-large encoder
buffer size, or an encoder error.  When the symbol does not fit the target
area the function only logs a warning (lines 1013-1016), draws the modules
that lie inside the panel (the per-module bound check at line 1032), and
still returns `true`. -/
def drawQrCode (x_target y_target : Int) (w_target h_target : Int)
    (text : String) (enc : EncodeResult) : Bool :=
  if text = "" then false
  else if MAX_QR_INPUT_STRING_LENGTH < text.length then false
  else if qrcode_getBufferSize_v7 = 0 then false
  else if 4096 < qrcode_getBufferSize_v7 then false
  else
    match enc with
    | EncodeResult.fail => false
    | EncodeResult.ok _ => true

/-- What a QR-mode redraw paints: the (possibly clipped) symbol, or the
centered error string "QR Generation Failed". -/
inductive QrScreenOutcome where
  | symbolDrawn
  | errorText
deriving DecidableEq, Repr

/-- `drawQrScreen` (lines 898-914): call `drawQrCode` over the whole panel
area `(0, 0, display.width(), display.height())` and substitute the centered
error string iff it reports failure. -/
def drawQrScreen (w h : Int) (qrCodeData : String) (enc : EncodeResult) : QrScreenOutcome :=
  if drawQrCode 0 0 w h qrCodeData enc then QrScreenOutcome.symbolDrawn
  else QrScreenOutcome.errorText

/-! ## Concrete scenario states used by witnesses and counterexamples -/

/-- The state right after a first boot with an empty store, used to build
concrete scenarios. -/
def bootState : BadgeState := setupLoad emptyStore 0

/-- Connected state with a pending clear and a simultaneously pending QR-mode
request, used to witness the clear-priority law. -/
def clearAndQrRequestState : BadgeState :=
  { bootState with deviceConnected := true, clearDisplayRequested := true,
                   requestedMode := DisplayMode.QR_CODE }

/-- Connected state whose current mode is already BLANK while a clear request
and an INFO mode change are both pending. -/
def clearWhileBlankState : BadgeState :=
  { bootState with deviceConnected := true, clearDisplayRequested := true,
                   currentMode := DisplayMode.BLANK,
                   requestedMode := DisplayMode.INFO,
                   displayUpdateRequestNeeded := false }

/-- State with a pending QR request but no QR payload, used to witness the
revert behaviour. -/
def emptyQrRequestState : BadgeState :=
  { bootState with requestedMode := DisplayMode.QR_CODE,
                   displayUpdateRequestNeeded := false }

/-- Connected state with a pending empty-payload QR request and a
simultaneously pending clear request. -/
def emptyQrRequestWithClearState : BadgeState :=
  { bootState with deviceConnected := true,
                   requestedMode := DisplayMode.QR_CODE,
                   clearDisplayRequested := true,
                   displayUpdateRequestNeeded := false }

/-- Quiescent connected state requesting the mode it is already in. -/
def redundantRequestState : BadgeState :=
  { bootState with deviceConnected := true, displayUpdateRequestNeeded := false }

/-- Connected state requesting its current mode while a clear request is
pending. -/
def redundantRequestWithClearState : BadgeState :=
  { bootState with deviceConnected := true, clearDisplayRequested := true,
                   displayUpdateRequestNeeded := false }

/-- Quiet disconnected state used by the clear-flag frame witness. -/
def quietDisconnectedState : BadgeState :=
  { bootState with displayUpdateRequestNeeded := false }

/-- Disconnected state with a pending clear request and a pending BLANK mode
change. -/
def discClearWithBlankRequestState : BadgeState :=
  { bootState with clearDisplayRequested := true,
                   requestedMode := DisplayMode.BLANK,
                   displayUpdateRequestNeeded := false }

/-- A `data:qr:` write whose payload is 91 characters of plain text. -/
def oversizeQrValue : String := "data:qr:" ++ "".pushn 'a' 91

/-- A `data:qr:` write whose payload is 86 characters followed by five
trailing spaces: 91 characters in the message, 86 after trimming. -/
def oversizeQrSpacesValue : String := "data:qr:" ++ ("".pushn 'a' 86 ++ "     ")

/-! ## General lemmas about the embedded operations -/

/-- A string is non-empty iff its length is positive; connects the source's
`qrCodeData.length() > 0` tests with the spec's "non-empty qrText". -/
theorem string_length_pos_iff (s : String) : 0 < s.length ↔ s ≠ "" := by
  cases s with
  | mk l =>
    cases l with
    | nil => exact ⟨fun h => absurd h (by decide), fun h => absurd rfl h⟩
    | cons c cs =>
      constructor
      · intro _ hne
        have hdata : c :: cs = ([] : List Char) := congrArg String.data hne
        exact absurd hdata (by simp)
      · intro _
        rw [String.length_mk]
        exact Nat.succ_pos _

/-- Unsigned 32-bit elapsed time from `t` to `t + d` is exactly `d` while `d`
stays below the wrap-around period. -/
theorem elapsed32_add (t d : Nat) (h : d < 4294967296) : elapsed32 (t + d) t = d := by
  unfold elapsed32
  omega

/-- The button rotation never maps a mode to itself, so every accepted click
requests an actual change. -/
theorem buttonRotation_ne (current : DisplayMode) (qr : String) :
    buttonRotation current qr ≠ current := by
  cases current with
  | INFO =>
    show (if 0 < qr.length then DisplayMode.QR_CODE else DisplayMode.BLANK) ≠
      DisplayMode.INFO
    split <;> decide
  | QR_CODE => show DisplayMode.BLANK ≠ DisplayMode.QR_CODE; decide
  | BLANK => show DisplayMode.INFO ≠ DisplayMode.BLANK; decide

/-- An accepted click (cooldown expired) sets the rotated request and restarts
the cooldown timer; nothing else changes. -/
theorem handleButtonClick_accepted (now : Nat) (s : BadgeState)
    (h : BUTTON_COOLDOWN_MS ≤ elapsed32 now s.lastButtonActionTime) :
    handleButtonClick now s =
      { s with requestedMode := buttonRotation s.currentMode s.qrCodeData,
               lastButtonActionTime := now } := by
  unfold handleButtonClick
  rw [if_neg (Nat.not_lt.mpr h)]
  dsimp only
  rw [if_pos (Or.inl (buttonRotation_ne s.currentMode s.qrCodeData))]

/-- A click inside the cooldown window is dropped without any state change. -/
theorem handleButtonClick_dropped (now : Nat) (s : BadgeState)
    (h : elapsed32 now s.lastButtonActionTime < BUTTON_COOLDOWN_MS) :
    handleButtonClick now s = s := by
  unfold handleButtonClick
  rw [if_pos h]

/-- The mode-change handler never touches the content strings, the timers, the
connection flag, the clear flag, the data flags or the store. -/
theorem processModeChange_frame (s : BadgeState) :
    (processModeChange s).state.personalInfo = s.personalInfo ∧
    (processModeChange s).state.qrCodeData = s.qrCodeData ∧
    (processModeChange s).state.lastButtonActionTime = s.lastButtonActionTime ∧
    (processModeChange s).state.wakeStartTime = s.wakeStartTime ∧
    (processModeChange s).state.deviceConnected = s.deviceConnected ∧
    (processModeChange s).state.clearDisplayRequested = s.clearDisplayRequested ∧
    (processModeChange s).state.newInfoDataReceived = s.newInfoDataReceived ∧
    (processModeChange s).state.newQrDataReceived = s.newQrDataReceived ∧
    (processModeChange s).state.displayUpdateRequestNeeded = s.displayUpdateRequestNeeded ∧
    (processModeChange s).state.nvs = s.nvs := by
  unfold processModeChange performFullClearOn
  dsimp only
  repeat' split
  all_goals simp_all

/-- The connected priority chain never touches the content strings, the
timers, the connection flag, the initial-redraw flag or the store. -/
theorem connectedStep_frame (s : BadgeState) :
    (connectedStep s).state.personalInfo = s.personalInfo ∧
    (connectedStep s).state.qrCodeData = s.qrCodeData ∧
    (connectedStep s).state.lastButtonActionTime = s.lastButtonActionTime ∧
    (connectedStep s).state.wakeStartTime = s.wakeStartTime ∧
    (connectedStep s).state.deviceConnected = s.deviceConnected ∧
    (connectedStep s).state.displayUpdateRequestNeeded = s.displayUpdateRequestNeeded ∧
    (connectedStep s).state.nvs = s.nvs := by
  obtain ⟨h1, h2, h3, h4, h5, h6, h7, h8, h9, h10⟩ := processModeChange_frame s
  unfold connectedStep performFullClearOn
  dsimp only
  repeat' split
  all_goals simp_all

/-- The disconnected mode-change handling preserves the same fields as the
connected chain, and additionally the clear and new-data flags. -/
theorem disconnectedStep_frame (s : BadgeState) :
    (disconnectedStep s).state.personalInfo = s.personalInfo ∧
    (disconnectedStep s).state.qrCodeData = s.qrCodeData ∧
    (disconnectedStep s).state.lastButtonActionTime = s.lastButtonActionTime ∧
    (disconnectedStep s).state.wakeStartTime = s.wakeStartTime ∧
    (disconnectedStep s).state.deviceConnected = s.deviceConnected ∧
    (disconnectedStep s).state.displayUpdateRequestNeeded = s.displayUpdateRequestNeeded ∧
    (disconnectedStep s).state.nvs = s.nvs ∧
    (disconnectedStep s).state.clearDisplayRequested = s.clearDisplayRequested ∧
    (disconnectedStep s).state.newInfoDataReceived = s.newInfoDataReceived ∧
    (disconnectedStep s).state.newQrDataReceived = s.newQrDataReceived := by
  obtain ⟨h1, h2, h3, h4, h5, h6, h7, h8, h9, h10⟩ := processModeChange_frame s
  unfold disconnectedStep
  repeat' split
  all_goals simp_all

/-- One loop iteration never moves the sleep-timer origin. -/
theorem loopTick_wakeStartTime (now : Nat) (s : BadgeState) :
    (loopTick now s).state.wakeStartTime = s.wakeStartTime := by
  have hcw := (connectedStep_frame s).2.2.2.1
  have hdw := (disconnectedStep_frame s).2.2.2.1
  unfold loopTick connectedTick disconnectedTick
  dsimp only
  repeat' split
  all_goals simp_all

/-- The write-callback classification never touches the sleep-timer origin. -/
theorem onWriteClassify_wakeStartTime (v : String) (s : BadgeState) :
    (onWriteClassify v s).state.wakeStartTime = s.wakeStartTime := by
  unfold onWriteClassify
  dsimp only
  repeat' split
  all_goals rfl

/-- The BLE write callback never touches the sleep-timer origin. -/
theorem onWrite_wakeStartTime (value : String) (s : BadgeState) :
    (onWrite value s).wakeStartTime = s.wakeStartTime := by
  unfold onWrite
  dsimp only
  split <;> simp [onWriteClassify_wakeStartTime]

/-- The button-click handler never touches the sleep-timer origin. -/
theorem handleButtonClick_wakeStartTime (now : Nat) (s : BadgeState) :
    (handleButtonClick now s).wakeStartTime = s.wakeStartTime := by
  unfold handleButtonClick
  dsimp only
  repeat' split
  all_goals rfl

/-! ## Claim theorems -/

/-- C1 (amended with the guard the source imposes): in a connected scheduling
tick where a clear request is pending together with a pending mode change and
the current mode is not already BLANK, the clear is processed first and the
mode change is skipped: afterwards current and requested mode are both BLANK,
the full clear has been performed, the mode persisted to storage is BLANK, and
no content redraw happens. -/
theorem clear_priority_over_mode_change (now : Nat) (s : BadgeState)
    (hc : s.deviceConnected = true)
    (hclr : s.clearDisplayRequested = true)
    (hmm : s.requestedMode ≠ s.currentMode)
    (hnb : s.currentMode ≠ DisplayMode.BLANK) :
    (loopTick now s).state.currentMode = DisplayMode.BLANK ∧
    (loopTick now s).state.requestedMode = DisplayMode.BLANK ∧
    (loopTick now s).events.fullClearPerformed = true ∧
    (loopTick now s).events.modeSavedToNvs = true ∧
    (loopTick now s).state.nvs.dispMode = some (modeToNat DisplayMode.BLANK) ∧
    (loopTick now s).events.displayUpdated = false := by
  simp only [loopTick, hc, if_true]
  simp only [connectedTick, connectedStep, performFullClearOn, hclr, if_true]
  simp [hnb, Ne.symm hnb]

/-- C1 witness: a connected tick on `clearAndQrRequestState` ends in BLANK with
the clear performed. -/
theorem clear_priority_over_mode_change_witness :
    (loopTick 0 clearAndQrRequestState).state.currentMode = DisplayMode.BLANK ∧
    (loopTick 0 clearAndQrRequestState).events.fullClearPerformed = true :=
  have h := clear_priority_over_mode_change 0 clearAndQrRequestState
    (by decide) (by decide) (by decide) (by decide)
  ⟨h.1, h.2.2.1⟩

/-- C1 counterexample to the unguarded claim: in a connected tick whose
current mode is already BLANK, a pending clear together with a pending INFO
mode change consumes the clear flag without performing any clear, leaves the
INFO request pending (so requested is not BLANK afterwards), and persists
nothing, contradicting the claim as stated. -/
theorem clear_priority_blank_current_counterexample :
    clearWhileBlankState.clearDisplayRequested = true ∧
    clearWhileBlankState.requestedMode ≠ clearWhileBlankState.currentMode ∧
    (loopTick 0 clearWhileBlankState).state.requestedMode = DisplayMode.INFO ∧
    (loopTick 0 clearWhileBlankState).events.fullClearPerformed = false ∧
    (loopTick 0 clearWhileBlankState).state.nvs.dispMode ≠
      some (modeToNat DisplayMode.BLANK) := by
  decide

/-- C5 (amended with the two guards the source imposes): in a tick where
requested is QR, current is not QR, qrText is empty, no clear request is
pending and the initial-boot redraw flag is already consumed, the controller
resets requested back to current and makes no other change: no mode switch,
no redraw and no persistence write occur. -/
theorem empty_qr_request_reverts (now : Nat) (s : BadgeState)
    (hreq : s.requestedMode = DisplayMode.QR_CODE)
    (hcur : s.currentMode ≠ DisplayMode.QR_CODE)
    (hqr : s.qrCodeData = "")
    (hclr : s.clearDisplayRequested = false)
    (hdu : s.displayUpdateRequestNeeded = false) :
    (loopTick now s).state.requestedMode = s.currentMode ∧
    (loopTick now s).state.currentMode = s.currentMode ∧
    (loopTick now s).state.personalInfo = s.personalInfo ∧
    (loopTick now s).state.qrCodeData = s.qrCodeData ∧
    (loopTick now s).state.nvs = s.nvs ∧
    (loopTick now s).events.displayUpdated = false ∧
    (loopTick now s).events.fullClearPerformed = false ∧
    (loopTick now s).events.modeSavedToNvs = false := by
  have hne : s.requestedMode ≠ s.currentMode := by
    rw [hreq]
    exact Ne.symm hcur
  cases hc : s.deviceConnected <;>
    simp [loopTick, hc, connectedTick, connectedStep, disconnectedTick,
      disconnectedStep, processModeChange, hreq, hqr, hne, hclr, hdu,
      hcur, Ne.symm hcur]

/-- C5 witness: a disconnected tick on `emptyQrRequestState` snaps the request
back to INFO with no redraw and no persistence write. -/
theorem empty_qr_request_reverts_witness :
    (loopTick 0 emptyQrRequestState).state.requestedMode = DisplayMode.INFO ∧
    (loopTick 0 emptyQrRequestState).events.displayUpdated = false ∧
    (loopTick 0 emptyQrRequestState).events.modeSavedToNvs = false :=
  have h := empty_qr_request_reverts 0 emptyQrRequestState
    (by decide) (by decide) (by decide) (by decide) (by decide)
  ⟨h.1, h.2.2.2.2.2.1, h.2.2.2.2.2.2.2⟩

/-- C5 counterexample to the unguarded claim: with requested = QR, current =
INFO and empty qrText but a clear request also pending, the tick does not
reset requested back to current (it ends BLANK), performs a full clear and
writes the mode to storage, contradicting "no other change" as stated. -/
theorem empty_qr_request_with_clear_counterexample :
    emptyQrRequestWithClearState.requestedMode = DisplayMode.QR_CODE ∧
    emptyQrRequestWithClearState.currentMode ≠ DisplayMode.QR_CODE ∧
    emptyQrRequestWithClearState.qrCodeData = "" ∧
    (loopTick 0 emptyQrRequestWithClearState).state.requestedMode ≠
      emptyQrRequestWithClearState.currentMode ∧
    (loopTick 0 emptyQrRequestWithClearState).events.fullClearPerformed = true ∧
    (loopTick 0 emptyQrRequestWithClearState).events.modeSavedToNvs = true := by
  decide

/-- C8 (amended with the guard the source imposes): a tick in which the
requested mode equals the current mode, the content flags are clear, the
initial-boot redraw flag is consumed and no clear request is pending produces
neither a redraw nor a persistence write. -/
theorem idempotent_mode_request (now : Nat) (s : BadgeState)
    (hreq : s.requestedMode = s.currentMode)
    (hni : s.newInfoDataReceived = false)
    (hnq : s.newQrDataReceived = false)
    (hdu : s.displayUpdateRequestNeeded = false)
    (hclr : s.clearDisplayRequested = false) :
    (loopTick now s).events.displayUpdated = false ∧
    (loopTick now s).events.fullClearPerformed = false ∧
    (loopTick now s).events.modeSavedToNvs = false ∧
    (loopTick now s).state.nvs = s.nvs := by
  cases hc : s.deviceConnected <;>
    simp [loopTick, hc, connectedTick, connectedStep, disconnectedTick,
      disconnectedStep, hreq, hni, hnq, hdu, hclr]

/-- C8 witness: a connected tick on `redundantRequestState` neither redraws
nor writes to storage. -/
theorem idempotent_mode_request_witness :
    (loopTick 0 redundantRequestState).events.displayUpdated = false ∧
    (loopTick 0 redundantRequestState).events.modeSavedToNvs = false :=
  have h := idempotent_mode_request 0 redundantRequestState
    (by decide) (by decide) (by decide) (by decide) (by decide)
  ⟨h.1, h.2.2.1⟩

/-- C8 counterexample to the unguarded claim: requesting the current mode
with the content flags clear and the initial redraw consumed, but with a clear
request pending, still performs a full-clear repaint and a mode persistence
write, contradicting the claim as stated. -/
theorem idempotent_request_with_clear_counterexample :
    redundantRequestWithClearState.requestedMode =
      redundantRequestWithClearState.currentMode ∧
    redundantRequestWithClearState.newInfoDataReceived = false ∧
    redundantRequestWithClearState.newQrDataReceived = false ∧
    redundantRequestWithClearState.displayUpdateRequestNeeded = false ∧
    (loopTick 0 redundantRequestWithClearState).events.fullClearPerformed = true ∧
    (loopTick 0 redundantRequestWithClearState).events.modeSavedToNvs = true := by
  decide

/-- C9: only connection events govern the deep-sleep deadline.  A button
click, a BLE write, a connect and a loop tick all leave the idle-timer origin
unchanged; a disconnect restarts it to the current time; and in a
disconnected tick the device enters deep sleep exactly when 60 s have elapsed
since the origin, in which case it also stops advertising and hibernates the
panel; a connected tick never deep-sleeps. -/
theorem sleep_deadline_control (now : Nat) (v : String) (s : BadgeState) :
    (handleButtonClick now s).wakeStartTime = s.wakeStartTime ∧
    (onWrite v s).wakeStartTime = s.wakeStartTime ∧
    (onConnect s).wakeStartTime = s.wakeStartTime ∧
    (onDisconnect now s).wakeStartTime = now ∧
    (loopTick now s).state.wakeStartTime = s.wakeStartTime ∧
    (s.deviceConnected = false →
      ((loopTick now s).events.enteredDeepSleep = true ↔
        WAKE_TIMEOUT_MS ≤ elapsed32 now s.wakeStartTime)) ∧
    (s.deviceConnected = false → WAKE_TIMEOUT_MS ≤ elapsed32 now s.wakeStartTime →
      (loopTick now s).events.stoppedAdvertising = true ∧
      (loopTick now s).events.hibernated = true) ∧
    (s.deviceConnected = true → (loopTick now s).events.enteredDeepSleep = false) := by
  refine ⟨handleButtonClick_wakeStartTime now s, onWrite_wakeStartTime v s, rfl, rfl,
    loopTick_wakeStartTime now s, ?_, ?_, ?_⟩
  · intro hdc
    have hw := (disconnectedStep_frame s).2.2.2.1
    simp only [loopTick, hdc, Bool.false_eq_true, if_false]
    unfold disconnectedTick
    dsimp only
    repeat' split
    all_goals simp_all
  · intro hdc hto
    have hw := (disconnectedStep_frame s).2.2.2.1
    simp only [loopTick, hdc, Bool.false_eq_true, if_false]
    unfold disconnectedTick
    dsimp only
    repeat' split
    all_goals simp_all
  · intro hc
    simp [loopTick, hc, connectedTick]

/-- C9 witness: in the disconnected boot state, a click at 500 ms does not
move the origin, the 70000 ms tick deep-sleeps, and a disconnect at 70000
restarts the origin. -/
theorem sleep_deadline_control_witness :
    (handleButtonClick 500 bootState).wakeStartTime = bootState.wakeStartTime ∧
    (loopTick 70000 bootState).events.enteredDeepSleep = true ∧
    (onDisconnect 70000 bootState).wakeStartTime = 70000 := by
  have h := sleep_deadline_control 70000 "x" bootState
  exact ⟨(sleep_deadline_control 500 "x" bootState).1,
    (h.2.2.2.2.2.1 rfl).mpr (by decide), h.2.2.2.1⟩

/-- The disconnected mode-change handling is blind to the clear flag: running
it with the flag forced to `b` gives the same outcome with only the flag
differing. -/
theorem disconnectedStep_clear_independent (s : BadgeState) (b : Bool) :
    disconnectedStep { s with clearDisplayRequested := b } =
      { state := { (disconnectedStep s).state with clearDisplayRequested := b },
        needsRedraw := (disconnectedStep s).needsRedraw,
        clearPerformed := (disconnectedStep s).clearPerformed } := by
  unfold disconnectedStep processModeChange performFullClearOn
  dsimp only
  repeat' split
  all_goals simp_all

/-- A whole disconnected tick is blind to the clear flag. -/
theorem disconnectedTick_clear_independent (now : Nat) (s : BadgeState) (b : Bool) :
    disconnectedTick now { s with clearDisplayRequested := b } =
      { state := { (disconnectedTick now s).state with clearDisplayRequested := b },
        events := (disconnectedTick now s).events } := by
  have hb := disconnectedStep_clear_independent s b
  unfold disconnectedTick
  rw [hb]
  dsimp only
  repeat' split
  all_goals simp_all

/-- C10 (amended): a disconnected tick neither consumes nor reads the clear
flag — its display actions and resulting state are identical whichever value
the flag has, and the flag survives unchanged — while a connected tick always
consumes it.  (The unamended claim's "no clear is performed" is refuted by
`disconnected_clear_performed_counterexample`: a full clear can still happen
in such a tick through an independently pending BLANK mode change.) -/
theorem disconnected_clear_flag_frame (now : Nat) (s : BadgeState) (b : Bool) :
    (s.deviceConnected = false →
      (loopTick now { s with clearDisplayRequested := b }).events =
        (loopTick now s).events ∧
      (loopTick now { s with clearDisplayRequested := b }).state =
        { (loopTick now s).state with clearDisplayRequested := b }) ∧
    (s.deviceConnected = true →
      (loopTick now s).state.clearDisplayRequested = false) := by
  constructor
  · intro hdc
    have hne : ¬ (s.deviceConnected = true) := by simp [hdc]
    simp only [loopTick]
    dsimp only
    rw [if_neg hne, if_neg hne, disconnectedTick_clear_independent now s b]
    exact ⟨rfl, rfl⟩
  · intro hc
    simp only [loopTick, hc, if_true]
    have h6 := (processModeChange_frame s).2.2.2.2.2.1
    unfold connectedTick connectedStep performFullClearOn
    dsimp only
    repeat' split
    all_goals simp_all

/-- C10 witness: with and without a pending clear, the disconnected tick on
the quiet boot state acts identically, and the flag survives the tick. -/
theorem disconnected_clear_flag_frame_witness :
    (loopTick 0 { quietDisconnectedState with clearDisplayRequested := true }).events =
      (loopTick 0 quietDisconnectedState).events ∧
    (loopTick 0 { quietDisconnectedState with
        clearDisplayRequested := true }).state.clearDisplayRequested = true := by
  have h := (disconnected_clear_flag_frame 0 quietDisconnectedState true).1 rfl
  refine ⟨h.1, ?_⟩
  rw [h.2]

/-- C10 counterexample to the claim as stated: in a disconnected tick with the
clear flag set, a full clear IS performed (via the pending BLANK mode change),
even though the clear request itself is untouched — so "no clear is performed"
is false at this input. -/
theorem disconnected_clear_performed_counterexample :
    discClearWithBlankRequestState.deviceConnected = false ∧
    discClearWithBlankRequestState.clearDisplayRequested = true ∧
    (loopTick 0 discClearWithBlankRequestState).events.fullClearPerformed = true ∧
    (loopTick 0 discClearWithBlankRequestState).state.clearDisplayRequested = true := by
  decide

/-- C2 (amended): a geometry non-fit is NOT treated like an encoding failure.
The error string is substituted exactly when the payload is empty, exceeds the
length limit, or the encoder fails; whether the scaled symbol fits the target
area plays no role in the outcome (a non-fitting symbol is drawn clipped). -/
theorem qr_error_text_iff (w h : Int) (text : String) (enc : EncodeResult) :
    drawQrScreen w h text enc = QrScreenOutcome.errorText ↔
      (text = "" ∨ MAX_QR_INPUT_STRING_LENGTH < text.length ∨
        enc = EncodeResult.fail) := by
  unfold drawQrScreen drawQrCode
  cases enc <;> (repeat' split) <;> simp_all [qrcode_getBufferSize_v7]

/-- C2 counterexample to the claim as stated: on a 50 by 50 target area the
90-pixel scaled version-7 symbol (45 modules at scale 2) does not fit, yet the
redraw still draws the symbol and does not substitute the documented error
string. -/
theorem qr_geometry_nonfit_counterexample :
    45 = 4 * FIXED_QR_VERSION + 17 ∧
    qrDoesNotFit 50 50 45 ∧
    drawQrScreen 50 50 "x" (EncodeResult.ok 45) = QrScreenOutcome.symbolDrawn := by
  refine ⟨by decide, ?_, by decide⟩
  unfold qrDoesNotFit scaledQrPixelSize FIXED_QR_SCALE
  decide

/-- C3 (amended): an inbound `data:qr:` write whose payload, as the parser
sees it after Arduino trimming of the whole value, is longer than
MAX_QR_INPUT_STRING_LENGTH is a complete no-op: the state (qrText, current
and requested mode, flags and persistent store) is unchanged.  The remaining
hypotheses record that the trimmed value is not one of the earlier commands
in the if/else chain, which is automatic for a value of this shape. -/
theorem oversize_qr_write_noop (value : String) (s : BadgeState)
    (h1 : equalsIgnoreCase (arduinoTrim value) "command:clear" = false)
    (h2 : equalsIgnoreCase (arduinoTrim value) "display:info" = false)
    (h3 : equalsIgnoreCase (arduinoTrim value) "display:qr" = false)
    (h4 : arduinoStartsWith (arduinoTrim value) "data:personal:" = false)
    (h5 : arduinoStartsWith (arduinoTrim value) "data:qr:" = true)
    (h6 : MAX_QR_INPUT_STRING_LENGTH <
      (substringFrom (arduinoTrim value) 8).length) :
    onWrite value s = s := by
  unfold onWrite onWriteClassify
  simp only [h1, h2, h3, h4, h5, Bool.false_eq_true, if_false, if_true]
  rw [if_neg (Nat.not_le.mpr h6)]
  simp

/-- C3 witness: the 91-character plain payload is rejected without any state
change. -/
theorem oversize_qr_write_noop_witness :
    onWrite oversizeQrValue bootState = bootState :=
  oversize_qr_write_noop oversizeQrValue bootState (by decide) (by decide)
    (by decide) (by decide) (by decide) (by decide)

/-- C3 counterexample to the claim as stated over the raw payload: the written
text is 91 characters long (over the limit), yet because the callback trims
the value before measuring, the write is accepted — qrText changes, the store
is written and QR mode is requested, so the operation is not a no-op. -/
theorem oversize_qr_write_spaces_counterexample :
    MAX_QR_INPUT_STRING_LENGTH < ("".pushn 'a' 86 ++ "     ").length ∧
    (onWrite oversizeQrSpacesValue bootState).qrCodeData ≠ bootState.qrCodeData ∧
    (onWrite oversizeQrSpacesValue bootState).nvs ≠ bootState.nvs ∧
    (onWrite oversizeQrSpacesValue bootState).requestedMode =
      DisplayMode.QR_CODE := by
  decide

/-- C4: for every accepted button click (one outside the cooldown window), the
requested mode after the handler is determined by the current mode:
INFO with non-empty qrText goes to QR, INFO with empty qrText to BLANK,
QR to BLANK, and BLANK to INFO. -/
theorem button_click_rotation (now : Nat) (s : BadgeState)
    (h : BUTTON_COOLDOWN_MS ≤ elapsed32 now s.lastButtonActionTime) :
    ((s.currentMode = DisplayMode.INFO ∧ s.qrCodeData ≠ "") →
        (handleButtonClick now s).requestedMode = DisplayMode.QR_CODE) ∧
    ((s.currentMode = DisplayMode.INFO ∧ s.qrCodeData = "") →
        (handleButtonClick now s).requestedMode = DisplayMode.BLANK) ∧
    (s.currentMode = DisplayMode.QR_CODE →
        (handleButtonClick now s).requestedMode = DisplayMode.BLANK) ∧
    (s.currentMode = DisplayMode.BLANK →
        (handleButtonClick now s).requestedMode = DisplayMode.INFO) := by
  rw [handleButtonClick_accepted now s h]
  refine ⟨fun ⟨hm, hq⟩ => ?_, fun ⟨hm, hq⟩ => ?_, fun hm => ?_, fun hm => ?_⟩ <;>
    simp only [buttonRotation, hm]
  · rw [if_pos ((string_length_pos_iff s.qrCodeData).mpr hq)]
  · rw [if_neg (by rw [string_length_pos_iff, hq]; simp)]

/-- C4 witness: from INFO with a non-empty QR payload, a click at time 6000
with the cooldown expired requests QR mode. -/
theorem button_click_rotation_witness :
    (handleButtonClick 6000
      { setupLoad emptyStore 0 with qrCodeData := "hello" }).requestedMode =
      DisplayMode.QR_CODE :=
  (button_click_rotation 6000 { setupLoad emptyStore 0 with qrCodeData := "hello" }
    (by decide)).1 ⟨by decide, by decide⟩

/-- C6: starting with the cooldown expired, two clicks within one cooldown
window yield exactly one accepted mode-change request: the first click
requests an actual mode change and starts the cooldown timer, and the second
click is a complete no-op. -/
theorem cooldown_two_clicks_one_accepted (s : BadgeState) (t0 d : Nat)
    (h0 : BUTTON_COOLDOWN_MS ≤ elapsed32 t0 s.lastButtonActionTime)
    (hd : d < BUTTON_COOLDOWN_MS) :
    (handleButtonClick t0 s).requestedMode ≠ s.currentMode ∧
    (handleButtonClick t0 s).lastButtonActionTime = t0 ∧
    handleButtonClick (t0 + d) (handleButtonClick t0 s) = handleButtonClick t0 s := by
  rw [handleButtonClick_accepted t0 s h0]
  refine ⟨buttonRotation_ne s.currentMode s.qrCodeData, rfl, ?_⟩
  apply handleButtonClick_dropped
  show elapsed32 (t0 + d) t0 < BUTTON_COOLDOWN_MS
  rw [elapsed32_add t0 d (lt_trans hd (by decide))]
  exact hd

/-- C6 witness: from the boot state, clicks at 6000 and 6100 give one accepted
request (the first) and the second is dropped. -/
theorem cooldown_two_clicks_one_accepted_witness :
    (handleButtonClick 6000 (setupLoad emptyStore 0)).requestedMode ≠
      (setupLoad emptyStore 0).currentMode ∧
    handleButtonClick 6100 (handleButtonClick 6000 (setupLoad emptyStore 0)) =
      handleButtonClick 6000 (setupLoad emptyStore 0) := by
  have h := cooldown_two_clicks_one_accepted (setupLoad emptyStore 0) 6000 100
    (by decide) (by decide)
  exact ⟨h.1, h.2.2⟩

/-- C7: an in-memory state whose three fields have been flushed to the
persistent store is reproduced exactly by the next boot's load, which also
syncs the requested mode. -/
theorem persisted_state_round_trip (s : BadgeState) (now : Nat)
    (hinfo : s.nvs.persInfo = some s.personalInfo)
    (hqr : s.nvs.qrData = some s.qrCodeData)
    (hmode : s.nvs.dispMode = some (modeToNat s.currentMode)) :
    (setupLoad s.nvs now).currentMode = s.currentMode ∧
    (setupLoad s.nvs now).personalInfo = s.personalInfo ∧
    (setupLoad s.nvs now).qrCodeData = s.qrCodeData ∧
    (setupLoad s.nvs now).requestedMode = s.currentMode := by
  unfold setupLoad
  rw [hinfo, hqr, hmode]
  refine ⟨?_, rfl, rfl, ?_⟩ <;> (cases s.currentMode <;> rfl)

/-- C7 witness: a concrete flushed state (QR mode, custom info and QR text)
survives a simulated power cycle. -/
theorem persisted_state_round_trip_witness :
    (setupLoad { persInfo := some "Jane\nDev", qrData := some "https://x.io",
                 dispMode := some 1 } 5).currentMode = DisplayMode.QR_CODE ∧
    (setupLoad { persInfo := some "Jane\nDev", qrData := some "https://x.io",
                 dispMode := some 1 } 5).personalInfo = "Jane\nDev" ∧
    (setupLoad { persInfo := some "Jane\nDev", qrData := some "https://x.io",
                 dispMode := some 1 } 5).qrCodeData = "https://x.io" :=
  have h := persisted_state_round_trip
    { currentMode := DisplayMode.QR_CODE, requestedMode := DisplayMode.QR_CODE,
      personalInfo := "Jane\nDev", qrCodeData := "https://x.io",
      displayUpdateRequestNeeded := false, clearDisplayRequested := false,
      newInfoDataReceived := false, newQrDataReceived := false,
      lastButtonActionTime := 0, wakeStartTime := 0, deviceConnected := false,
      nvs := { persInfo := some "Jane\nDev", qrData := some "https://x.io",
               dispMode := some 1 } } 5 rfl rfl rfl
  ⟨h.1, h.2.1, h.2.2.1⟩

end NameTag
